import Mathlib

/-!
Verification of the Hydrophone Dashboard coverage & divert correlation engine.

This file gives a shallow embedding of the analytical core of the repository:

* the coverage analyzer and status classifier of `Hydrophone.py`
  (`check_data_availability`, lines 106-458, and `get_expected_data_types`),
* the divert period reconstruction of
  `src/hydrophonedashboard/divert/gmail_parser.py`
  (`_calculate_divert_periods`, `is_location_diverted`),
* the aggregate status summary counts of `Hydrophone.py` (`good_count`).

Conventions of the embedding:

* Calendar dates and event timestamps are modelled as integers (day numbers
  resp. an arbitrary totally ordered time axis), matching the fact that the
  Python code only compares, subtracts and maxes them.
* Python float percentages are modelled as exact rationals.  The single
  threshold constant `coverage_threshold * 100` evaluates to exactly `30.0`
  in IEEE double arithmetic, so the rational model agrees with the source
  on the threshold itself.
* Python `dict`-shaped status records become structures; fallible calls
  (the ONC API fetch) become `Except` values; a `try/except` that degrades
  a device to an `error` record becomes a `match` on that `Except`.
* Python's stable `list.sort(key=...)` is modelled by Mathlib's
  `List.insertionSort`, which is stable in the same sense.
-/

/-- The five possible data products; `DATA_TYPES` in `Hydrophone.py`. -/
inductive DataType
  | wav
  | fft
  | mp3
  | flac
  | mat
deriving DecidableEq, Repr

open DataType

/-- `CRITICAL_DATA_TYPES = ['fft', 'flac', 'mat']`, the universal fallback
capability set in `Hydrophone.py`. -/
def CRITICAL_DATA_TYPES : List DataType := [fft, flac, mat]

/-- `DEVICE_CAPABILITIES` from `Hydrophone.py`: device-specific overrides for
known hardware limitations. -/
def DEVICE_CAPABILITIES : List (String × List DataType) :=
  [("ICLISTENHF1354", [fft]),
   ("ICLISTENHF1561", [fft, flac]),
   ("JASCOAMARHYDROPHONEE000186", [flac, mat]),
   ("JASCOAMARHYDROPHONED001022", [flac, mat]),
   ("JASCOAMARHYDROPHONED001025", [flac, mat]),
   ("JASCOAMARHYDROPHONEE000029", [flac, mat])]

/-- `get_expected_data_types(device_code)` in `Hydrophone.py`:
exact-match lookup in the capability table, else the fallback set. -/
def get_expected_data_types (device_code : String) : List DataType :=
  match DEVICE_CAPABILITIES.lookup device_code with
  | some caps => caps
  | none => CRITICAL_DATA_TYPES

/-- One observed data file, reduced to the two attributes the analysis uses:
the calendar date extracted from the filename / `dateFrom` field, and the
data type taken from the filename extension.  This is the content of one
entry of `files_by_date_and_type` in `check_data_availability`. -/
structure FileRec where
  date : ℤ
  dtype : DataType
deriving DecidableEq, Repr

/-- `files_by_date_and_type[date][dtype]`: the number of observed files with
the given date and type. -/
def countFiles (files : List FileRec) (d : ℤ) (t : DataType) : ℕ :=
  (files.filter (fun f => decide (f.date = d ∧ f.dtype = t))).length

/-- `file_counts_by_type[dtype]`: the multiset of positive per-day file counts
of a type, collected over every date that occurs in the observations
(`for date_data in files_by_date_and_type.values()` with the
`date_data[dtype] > 0` guard). -/
def dailyCounts (files : List FileRec) (t : DataType) : List ℕ :=
  (((files.map (fun f => f.date)).dedup).map (fun d => countFiles files d t)).filter
    (fun c => decide (0 < c))

/-- `sorted_counts[len(sorted_counts)//2]`: the upper median used by
`check_data_availability` when estimating the per-day baseline. -/
def medianCount (c : List ℕ) : ℕ :=
  (List.insertionSort (fun a b => a ≤ b) c).getD (c.length / 2) 0

/-- `expected_files_per_day[dtype]` in `check_data_availability`:
`max(median(daily counts), 4)` when the type was seen on some day,
else the default `12`. -/
def expected_files_per_day (files : List FileRec) (t : DataType) : ℕ :=
  let c := dailyCounts files t
  if c = [] then 12 else max (medianCount c) 4

/-- `coverage_pct = (actual_files / expected_files) * 100` for one day and
one type. -/
def coveragePct (files : List FileRec) (t : DataType) (d : ℤ) : ℚ :=
  ((countFiles files d t : ℚ) / (expected_files_per_day files t : ℚ)) * 100

/-- `day_has_adequate_coverage`: some expected type reaches the 30% threshold
(`coverage_pct >= coverage_threshold * 100`) on the given day. -/
def dayHasAdequateCoverage (files : List FileRec) (ts : List DataType) (d : ℤ) : Bool :=
  ts.any (fun t => decide ((30 : ℚ) ≤ coveragePct files t d))

/-- `days_with_poor_coverage` over the window of the `N` days
`today, today - 1, ..., today - (N-1)` (the loop
`for days_ago in range(CHECK_LAST_N_DAYS)`); with `N = 3` this is
`recent_days_with_poor_coverage`. -/
def daysWithPoorCoverage (files : List FileRec) (ts : List DataType) (today : ℤ) (N : ℕ) : ℕ :=
  ((List.range N).filter (fun (ago : ℕ) => !dayHasAdequateCoverage files ts (today - (ago : ℤ)))).length

/-- `days_missing_per_type[dtype]` over the same window; with `N = 3` this is
`recent_missing_per_type`. -/
def daysMissingPerType (files : List FileRec) (today : ℤ) (N : ℕ) (t : DataType) : ℕ :=
  ((List.range N).filter
    (fun (ago : ℕ) => !decide ((30 : ℚ) ≤ coveragePct files t (today - (ago : ℤ))))).length

/-- `frequently_missing_types`: types failing the threshold on more than half
the days of the window (`missing_days > CHECK_LAST_N_DAYS // 2`). -/
def frequentlyMissingTypes (files : List FileRec) (ts : List DataType) (today : ℤ) (N : ℕ) :
    List DataType :=
  ts.filter (fun t => decide (N / 2 < daysMissingPerType files today N t))

/-- `frequently_missing_recent`: types failing the threshold on 2+ of the last
3 days. -/
def frequentlyMissingRecent (files : List FileRec) (ts : List DataType) (today : ℤ) :
    List DataType :=
  ts.filter (fun t => decide (2 ≤ daysMissingPerType files today 3 t))

/-- `overall_coverage_per_type[dtype]`: mean of the `N` daily coverage
percentages of a type (`sum(...) / len(...)`, `0` when the list is empty). -/
def avgCoverage (files : List FileRec) (t : DataType) (today : ℤ) (N : ℕ) : ℚ :=
  if N = 0 then 0
  else ((List.range N).map (fun (ago : ℕ) => coveragePct files t (today - (ago : ℤ)))).sum / N

/-- `avg_coverage_deficit`: mean over the expected types of
`max(0, 100 - avg_coverage)`, `0` for an empty type list. -/
def avgCoverageDeficit (files : List FileRec) (ts : List DataType) (today : ℤ) (N : ℕ) : ℚ :=
  if ts = [] then 0
  else (ts.map (fun t => max 0 (100 - avgCoverage files t today N))).sum / ts.length

/-- `last_data_found`: the maximum file date among observations of an expected
type, `none` when there are none (the running
`if last_data_found is None or file_date > last_data_found` update). -/
def lastDataFound (files : List FileRec) (ts : List DataType) : Option ℤ :=
  (files.filter (fun f => decide (f.dtype ∈ ts))).foldl
    (fun acc f =>
      match acc with
      | none => some f.date
      | some d => some (max d f.date))
    none

/-! ### Divert events and period reconstruction (`gmail_parser.py`) -/

/-- The two status values carried by divert notification emails; models the
strings `'Divert'` / `'Bypass'` of `gmail_parser.py`. -/
inductive DStatus
  | Divert
  | Bypass
deriving DecidableEq, Repr

/-- One status-change event for a single location, as accumulated in
`location_events[location]` by `_calculate_divert_periods` (the location key
itself is left implicit: the reconstruction below is the per-location walk). -/
structure DivertEvent where
  timestamp : ℤ
  status : DStatus
  system : String
deriving DecidableEq, Repr

/-- One reconstructed period; `end = None` (here `stop = none`) denotes a
period still open at analysis time.  The field `stop` models the dict key
`'end'`, which is a reserved word in Lean. -/
structure DivertPeriod where
  start : ℤ
  stop : Option ℤ
  status : DStatus
  system : String
deriving DecidableEq, Repr

/-- The sort key of `location_events[location].sort(key=lambda x: x['timestamp'])`. -/
def byTimestamp (a b : DivertEvent) : Prop := a.timestamp ≤ b.timestamp

instance : DecidableRel byTimestamp := fun a b => Int.decLe a.timestamp b.timestamp

instance : IsTotal DivertEvent byTimestamp := ⟨fun a b => Int.le_total a.timestamp b.timestamp⟩

instance : IsTrans DivertEvent byTimestamp := ⟨fun _ _ _ h h' => le_trans h h'⟩

/-- The event walk of `_calculate_divert_periods`: the accumulator is
`current_period`; a status change closes it at the event's timestamp and opens
a new one, an unchanged status absorbs the event; the final accumulator is
appended with `end` still `None`. -/
def buildPeriods : Option DivertPeriod → List DivertEvent → List DivertPeriod
  | none, [] => []
  | some p, [] => [p]
  | none, e :: es =>
      buildPeriods (some { start := e.timestamp, stop := none, status := e.status,
                           system := e.system }) es
  | some p, e :: es =>
      if p.status ≠ e.status then
        { p with stop := some e.timestamp } ::
          buildPeriods (some { start := e.timestamp, stop := none, status := e.status,
                               system := e.system }) es
      else
        buildPeriods (some p) es

/-- `_calculate_divert_periods` restricted to one location: sort the events by
timestamp (Python's `list.sort` is stable; so is `insertionSort`) and walk
them. -/
def calculate_divert_periods (events : List DivertEvent) : List DivertPeriod :=
  buildPeriods none (List.insertionSort byTimestamp events)

/-! ### Divert inputs of the classifier -/

/-- The record returned by `get_location_divert_info`: the most recent known
status for a location (`current_divert_status[location_code]`). -/
structure DivertInfo where
  status : DStatus
  timestamp : Option ℤ
deriving DecidableEq, Repr

/-- `is_location_diverted` in `gmail_parser.py`: information is present and
its status is `'Divert'`.  `check_data_availability` computes the same test
inline to set `status['is_diverted']`. -/
def is_location_diverted (info : Option DivertInfo) : Bool :=
  match info with
  | some i => i.status = DStatus.Divert
  | none => false

/-- The fields of the `get_divert_statistics` result that
`check_data_availability` reads.  `total_divert_time_seconds` is
`total_divert_time.total_seconds()`; it is nonnegative by construction (the
statistics only accumulate periods with `period_end > period_start`). -/
structure DivertStats where
  total_periods : ℕ
  divert_percentage : ℚ
  total_divert_time_seconds : ℚ
  divert_periods_count : ℕ
deriving DecidableEq, Repr

/-- The `divert_explanation` dict built by `check_data_availability`
(lines 346-384). -/
structure DivertExplanation where
  divert_percentage : ℚ
  explained_missing : ℚ
  avg_coverage_deficit : ℚ
  total_divert_time_seconds : ℚ
  periods_count : ℕ
deriving DecidableEq, Repr

/-- Construction of `divert_explanation`: requires statistics to be available
(`divert_parser` present and `get_divert_statistics` not raising — `none`
models both failure modes), `total_periods > 0` and `divert_percentage > 5`;
`explained_missing = min(divert_percentage, avg_coverage_deficit)`. -/
def divertExplanation (stats : Option DivertStats) (deficit : ℚ) : Option DivertExplanation :=
  match stats with
  | none => none
  | some s =>
      if 0 < s.total_periods then
        if 5 < s.divert_percentage then
          some { divert_percentage := s.divert_percentage,
                 explained_missing := min s.divert_percentage deficit,
                 avg_coverage_deficit := deficit,
                 total_divert_time_seconds := s.total_divert_time_seconds,
                 periods_count := s.divert_periods_count }
        else none
      else none

/-! ### Status determination (`check_data_availability`, lines 392-450)

The numeric interpolations of the Python status messages (day counts,
percentages) are abstracted to their static prefixes; no claim reads them
except for the `error` message, which is modelled exactly. -/

/-- Rules 4-8 of the classifier waterfall: the `elif` chain following the
divert branches (recent poor coverage, recently missing types, recovered,
default). -/
def statusWaterfall (days_poor recent_poor : ℕ) (fmr fmt : List DataType) : String × String :=
  if 3 ≤ recent_poor then ("critical", "Poor data coverage for recent days")
  else if 2 ≤ recent_poor then ("warning", "Poor data coverage for recent days")
  else if 2 ≤ fmr.length then ("warning", "Recently missing data types")
  else if 1 ≤ fmr.length then ("minor", "Recently missing data type")
  else if (recent_poor = 0 ∧ fmr = []) ∧ (3 ≤ days_poor ∨ fmt ≠ []) then
    ("good", "Recently resolved - all data types now available")
  else ("good", "All expected data types available")

/-- The full status waterfall (`overall_status`, `status_message`): an active
divert dominates; otherwise a divert explanation with
`explained_missing > 20` discounts the poor-coverage counts by the diverted
days (`int(total_divert_time_seconds / 86400)`, a floor since the value is
nonnegative), softened on the recent window when the last 3 days saw more
than 15% divert time; otherwise the plain coverage waterfall applies. -/
def statusVerdict (is_div : Bool) (expl : Option DivertExplanation)
    (recent_divert_pct : Option ℚ) (days_poor recent_poor : ℕ)
    (fmr fmt : List DataType) : String × String :=
  if is_div then
    if 1 ≤ recent_poor ∨ 1 ≤ fmr.length then
      ("diverted", "DIVERTED - Missing data expected")
    else
      ("diverted", "DIVERTED - Data collection suspended")
  else
    match expl with
    | some ex =>
        if 20 < ex.explained_missing then
          let days_diverted : ℤ := Int.floor (ex.total_divert_time_seconds / 86400)
          let unexplained_missing : ℤ := max 0 ((days_poor : ℤ) - days_diverted)
          let unexplained_recent : ℤ :=
            if 15 < recent_divert_pct.getD 0 then max 0 ((recent_poor : ℤ) - 1)
            else (recent_poor : ℤ)
          if 2 ≤ unexplained_recent ∧ 3 ≤ unexplained_missing then
            ("warning", "Coverage issues beyond diversions")
          else if 1 ≤ unexplained_recent ∨ 2 ≤ unexplained_missing then
            ("minor", "Minor coverage issues beyond diversions")
          else
            ("good", "Coverage gaps explained by diversions")
        else statusWaterfall days_poor recent_poor fmr fmt
    | none => statusWaterfall days_poor recent_poor fmr fmt

/-- The per-device status record (`status` dict of `check_data_availability`),
restricted to the fields the claims read. -/
structure DeviceStatus where
  overall_status : String
  status_message : String
  days_since_last_data : ℤ
  missing_data_types : List DataType
  total_missing_days : ℕ
  is_diverted : Bool
deriving DecidableEq, Repr

/-- `check_data_availability` for one device.  `fetch` is the outcome of the
windowed ONC listing calls: `Except.error e` models the general API failure
caught at lines 162-166, which degrades the device to an `error` record with
the exception text in the message instead of propagating.  `N` is
`CHECK_LAST_N_DAYS`; the recent sub-window is the hard-coded 3 days.
`divert_info`, `divert_stats` and `recent_divert_pct` are the values obtained
from the Gmail parser (each `none` when the parser is absent or the
corresponding call raised). -/
def check_data_availability (expected_data_types : List DataType)
    (fetch : Except String (List FileRec)) (today : ℤ) (N : ℕ)
    (divert_info : Option DivertInfo) (divert_stats : Option DivertStats)
    (recent_divert_pct : Option ℚ) : DeviceStatus :=
  let is_div := is_location_diverted divert_info
  match fetch with
  | Except.error e =>
      { overall_status := "error", status_message := "API error: " ++ e,
        days_since_last_data := 0, missing_data_types := [],
        total_missing_days := 0, is_diverted := is_div }
  | Except.ok files =>
      let days_poor := daysWithPoorCoverage files expected_data_types today N
      let recent_poor := daysWithPoorCoverage files expected_data_types today 3
      let fmt := frequentlyMissingTypes files expected_data_types today N
      let fmr := frequentlyMissingRecent files expected_data_types today
      let deficit := avgCoverageDeficit files expected_data_types today N
      let expl := divertExplanation divert_stats deficit
      let v := statusVerdict is_div expl recent_divert_pct days_poor recent_poor fmr fmt
      { overall_status := v.1, status_message := v.2,
        days_since_last_data :=
          match lastDataFound files expected_data_types with
          | some d => today - d
          | none => (N : ℤ),
        missing_data_types := fmt,
        total_missing_days := days_poor,
        is_diverted := is_div }

/-- The batch loop: every device's status is produced, an `error` outcome for
one device never aborts the others (`MyDevices.data_status` is filled with one
record per device). -/
def analyzeAllDevices (inputs : List (Except String (List FileRec)))
    (expected_data_types : List DataType) (today : ℤ) (N : ℕ)
    (divert_info : Option DivertInfo) (divert_stats : Option DivertStats)
    (recent_divert_pct : Option ℚ) : List DeviceStatus :=
  inputs.map (fun fetch =>
    check_data_availability expected_data_types fetch today N divert_info divert_stats
      recent_divert_pct)

/-! ### Aggregate summary counts (`Hydrophone.py`, lines 750-754 and 959-963) -/

/-- `sum(1 for i in range(len(MyDevices)) if ... == s)`. -/
def countStatus (statuses : List String) (s : String) : ℕ :=
  (statuses.filter (fun x => x = s)).length

/-- `good_count = len(MyDevices) - critical_count - warning_count - minor_count
- diverted_count`. -/
def good_count (statuses : List String) : ℕ :=
  statuses.length - countStatus statuses "critical" - countStatus statuses "warning"
    - countStatus statuses "minor" - countStatus statuses "diverted"

/-! ### Evaluation lemmas for a device with no observations -/

theorem countFiles_nil (d : ℤ) (t : DataType) : countFiles [] d t = 0 := rfl

theorem expected_files_per_day_nil (t : DataType) : expected_files_per_day [] t = 12 := rfl

theorem coveragePct_nil (t : DataType) (d : ℤ) : coveragePct [] t d = 0 := by
  unfold coveragePct
  rw [countFiles_nil]
  norm_num

theorem dayHasAdequateCoverage_nil (ts : List DataType) (d : ℤ) :
    dayHasAdequateCoverage [] ts d = false := by
  unfold dayHasAdequateCoverage
  have h : ¬ ((30 : ℚ) ≤ 0) := by norm_num
  simp [coveragePct_nil, h]

theorem daysWithPoorCoverage_nil (ts : List DataType) (today : ℤ) (N : ℕ) :
    daysWithPoorCoverage [] ts today N = N := by
  unfold daysWithPoorCoverage
  rw [List.filter_eq_self.mpr]
  · exact List.length_range N
  · intro a _
    simp [dayHasAdequateCoverage_nil]

theorem daysMissingPerType_nil (today : ℤ) (N : ℕ) (t : DataType) :
    daysMissingPerType [] today N t = N := by
  unfold daysMissingPerType
  have h : ¬ ((30 : ℚ) ≤ 0) := by norm_num
  rw [List.filter_eq_self.mpr]
  · exact List.length_range N
  · intro a _
    simp [coveragePct_nil, h]

theorem lastDataFound_nil (ts : List DataType) : lastDataFound [] ts = none := rfl

theorem avgCoverage_nil (t : DataType) (today : ℤ) (N : ℕ) :
    avgCoverage [] t today N = 0 := by
  unfold avgCoverage
  split
  · rfl
  · simp [coveragePct_nil]

/-- **C1**: a device whose location has an active `Divert` status (the Gmail
parser's current status for the location is `Divert`) is classified
`diverted` regardless of all coverage inputs, and in particular never
`critical` — the active-divert branch precedes every coverage rule. -/
theorem active_divert_dominates (ts : List DataType) (files : List FileRec) (today : ℤ)
    (N : ℕ) (info : Option DivertInfo) (stats : Option DivertStats) (rpct : Option ℚ)
    (h : is_location_diverted info = true) :
    (check_data_availability ts (Except.ok files) today N info stats rpct).overall_status =
      "diverted" ∧
    (check_data_availability ts (Except.ok files) today N info stats rpct).overall_status ≠
      "critical" := by
  have hd :
      (check_data_availability ts (Except.ok files) today N info stats rpct).overall_status =
        "diverted" := by
    unfold check_data_availability statusVerdict
    rw [h]
    simp only [eq_self_iff_true, if_true]
    split <;> rfl
  refine ⟨hd, ?_⟩
  rw [hd]
  decide

/-- **C1 witness**: a concrete diverted device with empty observations (hence
3 poor-coverage recent days) is classified `diverted`, not `critical`. -/
theorem active_divert_dominates_witness :
    (check_data_availability CRITICAL_DATA_TYPES (Except.ok []) 0 7
        (some { status := DStatus.Divert, timestamp := none }) none none).overall_status =
      "diverted" ∧
    (check_data_availability CRITICAL_DATA_TYPES (Except.ok []) 0 7
        (some { status := DStatus.Divert, timestamp := none }) none none).overall_status ≠
      "critical" :=
  active_divert_dominates CRITICAL_DATA_TYPES [] 0 7
    (some { status := DStatus.Divert, timestamp := none }) none none (by decide)

/-- **C6**: a device with zero file observations in a 7-day window and no
divert information yields `total_missing_days = 7`, `days_since_last_data = 7`
and `overall_status = critical`. -/
theorem zero_observations_critical (device_code : String) (today : ℤ) :
    (check_data_availability (get_expected_data_types device_code) (Except.ok []) today 7
        none none none).total_missing_days = 7 ∧
    (check_data_availability (get_expected_data_types device_code) (Except.ok []) today 7
        none none none).days_since_last_data = 7 ∧
    (check_data_availability (get_expected_data_types device_code) (Except.ok []) today 7
        none none none).overall_status = "critical" := by
  refine ⟨?_, ?_, ?_⟩
  · simp only [check_data_availability]
    rw [daysWithPoorCoverage_nil]
  · simp only [check_data_availability, lastDataFound_nil]
    norm_num
  · simp only [check_data_availability, statusVerdict, divertExplanation,
      is_location_diverted, daysWithPoorCoverage_nil]
    simp [statusWaterfall]

/-- **C9**: a failure of the observation fetch for one device is converted to
a status record with `overall_status = error` whose message carries the
exception text, and the batch analysis still produces one record per
device. -/
theorem fetch_error_degrades_to_error_status (e : String) (ts : List DataType) (today : ℤ)
    (N : ℕ) (info : Option DivertInfo) (stats : Option DivertStats) (rpct : Option ℚ) :
    (check_data_availability ts (Except.error e) today N info stats rpct).overall_status =
      "error" ∧
    (∃ pre,
      (check_data_availability ts (Except.error e) today N info stats rpct).status_message =
        pre ++ e) ∧
    ∀ inputs : List (Except String (List FileRec)),
      (analyzeAllDevices inputs ts today N info stats rpct).length = inputs.length := by
  refine ⟨rfl, ⟨"API error: ", rfl⟩, ?_⟩
  intro inputs
  simp [analyzeAllDevices]

/-- The five status buckets of the summary partition the device list: the four
counted buckets plus everything else. -/
theorem countStatus_partition (l : List String) :
    countStatus l "critical" + countStatus l "warning" + countStatus l "minor" +
      countStatus l "diverted" +
      (l.filter (fun s =>
        decide (s ≠ "critical" ∧ s ≠ "warning" ∧ s ≠ "minor" ∧ s ≠ "diverted"))).length =
      l.length := by
  induction l with
  | nil => rfl
  | cons a l ih =>
    by_cases h1 : a = "critical" <;> by_cases h2 : a = "warning" <;>
      by_cases h3 : a = "minor" <;> by_cases h4 : a = "diverted" <;>
      simp_all [countStatus, List.filter_cons] <;> omega

/-- **C10**: `good_count` is the device count minus the critical, warning,
minor and diverted counts, so it counts exactly the devices in none of those
four buckets — in particular every `error` device lands in the good total. -/
theorem good_count_absorbs_error (l : List String) :
    good_count l =
      (l.filter (fun s =>
        decide (s ≠ "critical" ∧ s ≠ "warning" ∧ s ≠ "minor" ∧ s ≠ "diverted"))).length ∧
    good_count ["error"] = 1 := by
  have h := countStatus_partition l
  constructor
  · unfold good_count
    omega
  · rfl

/-- A concrete 7-day observation set whose per-day `fft` counts are the
multiset {2, 4, 4, 6}. -/
def sampleWindow : List FileRec :=
  List.replicate 2 { date := 0, dtype := fft } ++
    List.replicate 4 { date := -1, dtype := fft } ++
    List.replicate 4 { date := -2, dtype := fft } ++
    List.replicate 6 { date := -3, dtype := fft }

/-- **C7**: the per-day expected file count is `max(median, 4)` when the type
was observed on at least one day and `12` otherwise; on observed daily counts
[2, 4, 4, 6] it evaluates to 4, and to 12 for a type with no files at all. -/
theorem expected_count_rule (files : List FileRec) (t : DataType) :
    expected_files_per_day files t =
      (if dailyCounts files t = [] then 12 else max (medianCount (dailyCounts files t)) 4) ∧
    List.insertionSort (fun a b => a ≤ b) (dailyCounts sampleWindow fft) = [2, 4, 4, 6] ∧
    expected_files_per_day sampleWindow fft = 4 ∧
    expected_files_per_day sampleWindow mat = 12 :=
  ⟨rfl, by decide, by decide, by decide⟩

/-- A concrete observation set where one day's count (20) far exceeds the
median-based baseline (4), so that day's coverage is 500%. -/
def overSample : List FileRec :=
  List.replicate 20 { date := 0, dtype := fft } ++
    List.replicate 4 { date := -1, dtype := fft } ++
    List.replicate 4 { date := -2, dtype := fft }

/-- **C8**: the coverage divisor `expected_files_per_day` is always at least 4
(so `coverage_pct` is well defined), `coverage_pct` is never negative, and it
has no upper bound: it can exceed 100. -/
theorem coveragePct_well_defined (files : List FileRec) (t : DataType) (d : ℤ) :
    4 ≤ expected_files_per_day files t ∧ 0 ≤ coveragePct files t d ∧
    ∃ (files' : List FileRec) (t' : DataType) (d' : ℤ), 100 < coveragePct files' t' d' := by
  refine ⟨?_, ?_, overSample, fft, 0, ?_⟩
  · unfold expected_files_per_day
    dsimp only
    split
    · norm_num
    · exact le_max_right _ _
  · unfold coveragePct
    positivity
  · have h1 : countFiles overSample 0 fft = 20 := by decide
    have h2 : expected_files_per_day overSample fft = 4 := by decide
    unfold coveragePct
    rw [h1, h2]
    norm_num

/-- **C3**: for one location's events Bypass, Divert, Divert, Bypass at
strictly increasing times, reconstruction yields exactly the periods
`Bypass[t0,t1)`, `Divert[t1,t3)`, `Bypass[t3,None)`: the duplicate `Divert`
at `t2` is absorbed and opens no extra period. -/
theorem duplicate_event_absorbed (t0 t1 t2 t3 : ℤ) (s0 s1 s2 s3 : String)
    (h01 : t0 < t1) (h12 : t1 < t2) (h23 : t2 < t3) :
    calculate_divert_periods
      [{ timestamp := t0, status := DStatus.Bypass, system := s0 },
       { timestamp := t1, status := DStatus.Divert, system := s1 },
       { timestamp := t2, status := DStatus.Divert, system := s2 },
       { timestamp := t3, status := DStatus.Bypass, system := s3 }] =
      [{ start := t0, stop := some t1, status := DStatus.Bypass, system := s0 },
       { start := t1, stop := some t3, status := DStatus.Divert, system := s1 },
       { start := t3, stop := none, status := DStatus.Bypass, system := s3 }] := by
  unfold calculate_divert_periods
  have hsort :
      List.insertionSort byTimestamp
        [{ timestamp := t0, status := DStatus.Bypass, system := s0 },
         { timestamp := t1, status := DStatus.Divert, system := s1 },
         { timestamp := t2, status := DStatus.Divert, system := s2 },
         { timestamp := t3, status := DStatus.Bypass, system := s3 }] =
        [{ timestamp := t0, status := DStatus.Bypass, system := s0 },
         { timestamp := t1, status := DStatus.Divert, system := s1 },
         { timestamp := t2, status := DStatus.Divert, system := s2 },
         { timestamp := t3, status := DStatus.Bypass, system := s3 }] := by
    simp [List.insertionSort, List.orderedInsert, byTimestamp, le_of_lt h01, le_of_lt h12,
      le_of_lt h23]
  rw [hsort]
  simp [buildPeriods]

/-- **C3 witness**: the reconstruction at the concrete times 0 < 1 < 2 < 3. -/
theorem duplicate_event_absorbed_witness :
    calculate_divert_periods
      [{ timestamp := 0, status := DStatus.Bypass, system := "a" },
       { timestamp := 1, status := DStatus.Divert, system := "b" },
       { timestamp := 2, status := DStatus.Divert, system := "c" },
       { timestamp := 3, status := DStatus.Bypass, system := "d" }] =
      [{ start := 0, stop := some 1, status := DStatus.Bypass, system := "a" },
       { start := 1, stop := some 3, status := DStatus.Divert, system := "b" },
       { start := 3, stop := none, status := DStatus.Bypass, system := "d" }] :=
  duplicate_event_absorbed 0 1 2 3 "a" "b" "c" "d" (by decide) (by decide) (by decide)

/-- Strict timestamp order on events, used to compare sorted outputs. -/
def byTimestampStrict (a b : DivertEvent) : Prop := a.timestamp < b.timestamp

instance : IsAntisymm DivertEvent byTimestampStrict :=
  ⟨fun _ _ h h' => absurd (lt_trans h h') (lt_irrefl _)⟩

/-- Stable sorting is insensitive to the input order as soon as the
timestamps are pairwise distinct. -/
theorem insertionSort_eq_of_perm_of_nodup (l₁ l₂ : List DivertEvent) (hperm : l₁.Perm l₂)
    (hnodup : (l₁.map DivertEvent.timestamp).Nodup) :
    List.insertionSort byTimestamp l₁ = List.insertionSort byTimestamp l₂ := by
  have hsp : (List.insertionSort byTimestamp l₁).Perm (List.insertionSort byTimestamp l₂) :=
    ((List.perm_insertionSort byTimestamp l₁).trans hperm).trans
      (List.perm_insertionSort byTimestamp l₂).symm
  have hstrict : ∀ m : List DivertEvent, (m.map DivertEvent.timestamp).Nodup →
      m.Pairwise byTimestamp → m.Pairwise byTimestampStrict := by
    intro m hm hs
    have hne : m.Pairwise (fun a b => a.timestamp ≠ b.timestamp) := List.pairwise_map.mp hm
    exact (hs.and hne).imp (fun h => lt_of_le_of_ne h.1 h.2)
  have hn1 : ((List.insertionSort byTimestamp l₁).map DivertEvent.timestamp).Nodup :=
    (((List.perm_insertionSort byTimestamp l₁).map DivertEvent.timestamp).symm).nodup_iff.mp
      hnodup
  have hn2 : ((List.insertionSort byTimestamp l₂).map DivertEvent.timestamp).Nodup :=
    ((hsp.map DivertEvent.timestamp)).nodup_iff.mp hn1
  exact List.eq_of_perm_of_sorted hsp
    (hstrict _ hn1 (List.sorted_insertionSort byTimestamp l₁))
    (hstrict _ hn2 (List.sorted_insertionSort byTimestamp l₂))

/-- **C4 counterexample**: two distinct (hence surviving deduplication) events
with equal timestamps but different statuses; swapping their order changes the
reconstructed period list, refuting order-independence as stated. -/
theorem reconstruction_order_dependent :
    ([{ timestamp := 0, status := DStatus.Divert, system := "A" },
      { timestamp := 0, status := DStatus.Bypass, system := "A" }] : List DivertEvent).Nodup ∧
    ([{ timestamp := 0, status := DStatus.Divert, system := "A" },
      { timestamp := 0, status := DStatus.Bypass, system := "A" }] : List DivertEvent).Perm
      [{ timestamp := 0, status := DStatus.Bypass, system := "A" },
       { timestamp := 0, status := DStatus.Divert, system := "A" }] ∧
    calculate_divert_periods
      [{ timestamp := 0, status := DStatus.Divert, system := "A" },
       { timestamp := 0, status := DStatus.Bypass, system := "A" }] ≠
      calculate_divert_periods
        [{ timestamp := 0, status := DStatus.Bypass, system := "A" },
         { timestamp := 0, status := DStatus.Divert, system := "A" }] := by
  refine ⟨by decide, List.Perm.swap _ _ _, by decide⟩

/-- **C4 amended**: reconstruction is a deterministic function of the event
list (re-running it yields an identical period list), and it is
order-independent over permutations of event collections whose timestamps are
pairwise distinct (with equal timestamps the stable sort keeps arrival order,
so order-independence can fail; see the counterexample). -/
theorem reconstruction_deterministic (l l₁ l₂ : List DivertEvent) (hperm : l₁.Perm l₂)
    (hnodup : (l₁.map DivertEvent.timestamp).Nodup) :
    calculate_divert_periods l = calculate_divert_periods l ∧
    calculate_divert_periods l₁ = calculate_divert_periods l₂ := by
  refine ⟨rfl, ?_⟩
  unfold calculate_divert_periods
  rw [insertionSort_eq_of_perm_of_nodup l₁ l₂ hperm hnodup]

/-- **C4 witness**: the amended theorem at a two-event collection with
distinct timestamps and its reversal. -/
theorem reconstruction_deterministic_witness :
    calculate_divert_periods
      [{ timestamp := 0, status := DStatus.Divert, system := "A" },
       { timestamp := 1, status := DStatus.Bypass, system := "A" }] =
      calculate_divert_periods
        [{ timestamp := 0, status := DStatus.Divert, system := "A" },
         { timestamp := 1, status := DStatus.Bypass, system := "A" }] ∧
    calculate_divert_periods
      [{ timestamp := 0, status := DStatus.Divert, system := "A" },
       { timestamp := 1, status := DStatus.Bypass, system := "A" }] =
      calculate_divert_periods
        [{ timestamp := 1, status := DStatus.Bypass, system := "A" },
         { timestamp := 0, status := DStatus.Divert, system := "A" }] :=
  reconstruction_deterministic
    [{ timestamp := 0, status := DStatus.Divert, system := "A" },
     { timestamp := 1, status := DStatus.Bypass, system := "A" }]
    [{ timestamp := 0, status := DStatus.Divert, system := "A" },
     { timestamp := 1, status := DStatus.Bypass, system := "A" }]
    [{ timestamp := 1, status := DStatus.Bypass, system := "A" },
     { timestamp := 0, status := DStatus.Divert, system := "A" }]
    (List.Perm.swap _ _ _) (by decide)

/-- The adjacency invariant between two consecutive reconstructed periods:
the earlier one is closed exactly where the later one starts, their statuses
differ, and their starts are ordered. -/
def periodsAdjacent (p q : DivertPeriod) : Prop :=
  p.stop = some q.start ∧ p.status ≠ q.status ∧ p.start ≤ q.start

/-- The event walk preserves the period invariants: starting from an open
accumulator that precedes all remaining (sorted) events, it produces a
non-empty list headed by the accumulator's start and status, adjacent periods
are contiguous with alternating statuses, and only the final period is
open. -/
theorem buildPeriods_chain (es : List DivertEvent) :
    ∀ p : DivertPeriod, es.Pairwise byTimestamp →
      (∀ e ∈ es, p.start ≤ e.timestamp) → p.stop = none →
      ∃ q qs, buildPeriods (some p) es = q :: qs ∧ q.start = p.start ∧ q.status = p.status ∧
        (q :: qs).Chain' periodsAdjacent ∧
        ((q :: qs).getLast?.map DivertPeriod.stop = some none) := by
  induction es with
  | nil =>
    intro p _ _ hstop
    exact ⟨p, [], rfl, rfl, rfl, List.chain'_singleton p, by simp [hstop]⟩
  | cons e es ih =>
    intro p hpw hp hstop
    rw [List.pairwise_cons] at hpw
    by_cases hst : p.status = e.status
    · have habs : buildPeriods (some p) (e :: es) = buildPeriods (some p) es := by
        simp [buildPeriods, hst]
      obtain ⟨q, qs, hb, h1, h2, h3, h4⟩ :=
        ih p hpw.2 (fun x hx => hp x (List.mem_cons_of_mem e hx)) hstop
      exact ⟨q, qs, habs.trans hb, h1, h2, h3, h4⟩
    · have hcl : buildPeriods (some p) (e :: es) =
          { p with stop := some e.timestamp } ::
            buildPeriods (some { start := e.timestamp, stop := none, status := e.status,
                                 system := e.system }) es := by
        simp [buildPeriods, hst]
      obtain ⟨q, qs, hb, h1, h2, h3, h4⟩ :=
        ih { start := e.timestamp, stop := none, status := e.status, system := e.system }
          hpw.2 (fun x hx => hpw.1 x hx) rfl
      refine ⟨{ p with stop := some e.timestamp }, q :: qs, by rw [hcl, hb], rfl, rfl, ?_, ?_⟩
      · refine List.chain'_cons.mpr ⟨⟨by simp [h1], ?_, ?_⟩, h3⟩
        · simpa [h2] using hst
        · simp only [h1]
          exact hp e (List.mem_cons_self e es)
      · rw [List.getLast?_cons_cons]
        exact h4

/-- **C5**: for every event list, the reconstructed period list is ordered by
start, contiguous (each closed period's `end` equals the next period's
start), never repeats a status across consecutive periods, and exactly the
final period (when the list is non-empty) has `end = None`. -/
theorem periods_invariant (l : List DivertEvent) :
    (calculate_divert_periods l).Chain' periodsAdjacent ∧
    ((calculate_divert_periods l).getLast?.map DivertPeriod.stop =
      if calculate_divert_periods l = [] then none else some none) := by
  unfold calculate_divert_periods
  have hsorted := List.sorted_insertionSort byTimestamp l
  rcases hs : List.insertionSort byTimestamp l with _ | ⟨e, es⟩
  · exact ⟨List.chain'_nil, by simp [buildPeriods]⟩
  · rw [hs] at hsorted
    rw [List.sorted_cons] at hsorted
    have hseed : buildPeriods none (e :: es) =
        buildPeriods (some { start := e.timestamp, stop := none, status := e.status,
                             system := e.system }) es := rfl
    obtain ⟨q, qs, hb, _, _, h3, h4⟩ :=
      buildPeriods_chain es
        { start := e.timestamp, stop := none, status := e.status, system := e.system }
        hsorted.2 (fun x hx => hsorted.1 x hx) rfl
    rw [hseed, hb]
    exact ⟨h3, by simp [h4]⟩

/-- **C2**: with no active divert, available divert statistics with at least
one overlapping period, `divert_percentage > 5` and
`min(divert_percentage, avg_coverage_deficit) > 20`, the status is decided by
the discounted counts: `unexplained_missing` is the poor-coverage-day count
minus the floored diverted-day count (clamped at 0) and `unexplained_recent`
is the recent poor-coverage-day count, reduced by one (clamped at 0) when the
recent 3-day sub-window saw more than 15% divert time; `warning` iff
`unexplained_recent >= 2` and `unexplained_missing >= 3`, else `minor` iff
`unexplained_recent >= 1` or `unexplained_missing >= 2`, else `good`. -/
theorem explained_by_history_rule (ts : List DataType) (files : List FileRec) (today : ℤ)
    (N : ℕ) (info : Option DivertInfo) (s : DivertStats) (rpct : Option ℚ)
    (hdiv : is_location_diverted info = false)
    (hper : 0 < s.total_periods)
    (hdp : 5 < s.divert_percentage)
    (hmin : 20 < min s.divert_percentage (avgCoverageDeficit files ts today N)) :
    (check_data_availability ts (Except.ok files) today N info (some s) rpct).overall_status =
      (if (2 ≤ (if 15 < rpct.getD 0 then
                  max 0 ((daysWithPoorCoverage files ts today 3 : ℤ) - 1)
                else (daysWithPoorCoverage files ts today 3 : ℤ))) ∧
          (3 ≤ max 0 ((daysWithPoorCoverage files ts today N : ℤ) -
                  Int.floor (s.total_divert_time_seconds / 86400))) then "warning"
       else if (1 ≤ (if 15 < rpct.getD 0 then
                      max 0 ((daysWithPoorCoverage files ts today 3 : ℤ) - 1)
                    else (daysWithPoorCoverage files ts today 3 : ℤ))) ∨
               (2 ≤ max 0 ((daysWithPoorCoverage files ts today N : ℤ) -
                      Int.floor (s.total_divert_time_seconds / 86400))) then "minor"
       else "good") := by
  have hexpl : divertExplanation (some s) (avgCoverageDeficit files ts today N) =
      some { divert_percentage := s.divert_percentage,
             explained_missing :=
               min s.divert_percentage (avgCoverageDeficit files ts today N),
             avg_coverage_deficit := avgCoverageDeficit files ts today N,
             total_divert_time_seconds := s.total_divert_time_seconds,
             periods_count := s.divert_periods_count } := by
    simp only [divertExplanation]
    rw [if_pos hper, if_pos hdp]
  unfold check_data_availability statusVerdict
  rw [hdiv]
  simp only [Bool.false_eq_true, if_false, hexpl]
  rw [if_pos hmin]
  simp only [apply_ite (Prod.fst : String × String → String)]

/-- **C2 witness**: an undiverted device with empty observations (7 poor days,
3 recent poor days, 100% coverage deficit) and statistics reporting 50%
divert time but zero diverted seconds: nothing is discounted, so the rule
yields `warning`. -/
theorem explained_by_history_rule_witness :
    (check_data_availability [fft] (Except.ok []) 0 7 none
        (some { total_periods := 1, divert_percentage := 50, total_divert_time_seconds := 0,
                divert_periods_count := 1 }) none).overall_status = "warning" := by
  have hdef : avgCoverageDeficit [] [fft] 0 7 = 100 := by
    unfold avgCoverageDeficit
    simp [avgCoverage_nil]
  have h := explained_by_history_rule [fft] [] 0 7 none
    { total_periods := 1, divert_percentage := 50, total_divert_time_seconds := 0,
      divert_periods_count := 1 } none rfl (by decide) (by norm_num)
    (by rw [hdef]; norm_num)
  rw [h, daysWithPoorCoverage_nil, daysWithPoorCoverage_nil]
  norm_num
